import Mathlib

/-!
Verification of the adb sync client (`adb/file_sync_client.cpp`).

The development shallowly embeds the client side of the sync protocol:
requests and file bodies are byte lists, the duplex stream is a list of
already-framed server replies plus explicit success flags for each local
read/write the code performs, and the session object `SyncConnection` is the
record `SC` threaded through each operation.  Machine integers of the source
are `Nat` (all the quantities involved are unsigned in the source).
-/

/-- Modelled from the spec: `SYNC_DATA_MAX` (`MAX_CHUNK`), the DATA payload
ceiling, 64 KiB.  The header `file_sync_service.h` defining it is not among
the sources; the spec fixes the value. -/
def SYNC_DATA_MAX : Nat := 64 * 1024

/-- Modelled from the spec: message identifiers are four ASCII bytes packed
little-endian (`MKID` of `file_sync_service.h`, not among the sources).
Only their pairwise distinctness matters below. -/
def MKID (a b c d : Nat) : Nat := a + b * 256 + c * 65536 + d * 16777216

def ID_LIST : Nat := MKID 76 73 83 84

def ID_STAT : Nat := MKID 83 84 65 84

def ID_DENT : Nat := MKID 68 69 78 84

def ID_DONE : Nat := MKID 68 79 78 69

def ID_DATA : Nat := MKID 68 65 84 65

def ID_RECV : Nat := MKID 82 69 67 86

def ID_SEND : Nat := MKID 83 69 78 68

def ID_QUIT : Nat := MKID 81 85 73 84

def ID_OKAY : Nat := MKID 79 75 65 89

def ID_FAIL : Nat := MKID 70 65 73 76

/-- POSIX file-type mask, as used through `S_ISREG`/`S_ISLNK` in the source. -/
def S_IFMT : Nat := 0o170000

def S_IFREG : Nat := 0o100000

def S_IFLNK : Nat := 0o120000

def S_IFDIR : Nat := 0o040000

/-- `S_ISREG(m)`: the file-type bits of `m` are the regular-file type. -/
def S_ISREG (m : Nat) : Prop := m &&& S_IFMT = S_IFREG

/-- `S_ISLNK(m)`: the file-type bits of `m` are the symlink type. -/
def S_ISLNK (m : Nat) : Prop := m &&& S_IFMT = S_IFLNK

instance (m : Nat) : Decidable (S_ISREG m) :=
  inferInstanceAs (Decidable (m &&& S_IFMT = S_IFREG))

instance (m : Nat) : Decidable (S_ISLNK m) :=
  inferInstanceAs (Decidable (m &&& S_IFMT = S_IFLNK))

/-- The mutable state of a `SyncConnection` that the claims are about:
`total_bytes` and the chunk ceiling `max` (`sc.max`, set to `SYNC_DATA_MAX`
in the constructor). -/
structure SC where
  total_bytes : Nat
  max : Nat
  deriving DecidableEq

/-- 32-bit little-endian encoding of one header field. -/
def le32 (n : Nat) : List Nat := [n % 256, n / 256 % 256, n / 65536 % 256, n / 16777216 % 256]

/-- The 8-byte `SyncRequest` header: `id` then `path_length`, both LE32. -/
def syncRequestHeader (id len : Nat) : List Nat := le32 id ++ le32 len

/-- Result of a request primitive: success flag plus the list of transport
writes it performed (each element one `WriteFdExactly` buffer). -/
structure WriteRes where
  ok : Bool
  writes : List (List Nat)
  deriving DecidableEq

/-- `SyncConnection::SendRequest`: rejects a path longer than 1024 bytes
before writing anything, otherwise writes header and path in a single
buffer; `writeOk` is the outcome of that `WriteFdExactly`. -/
def SendRequest (id : Nat) (path : List Nat) (writeOk : Bool) : WriteRes :=
  if path.length > 1024 then ⟨false, []⟩
  else ⟨writeOk, [syncRequestHeader id path.length ++ path]⟩

/-- Result of `SendSmallFile`: success flag, transport writes, and the
updated connection state. -/
structure SendSmallRes where
  ok : Bool
  writes : List (List Nat)
  sc : SC
  deriving DecidableEq

/-- `SyncConnection::SendSmallFile`: rejects a long `path,mode` string before
writing anything; otherwise packs `SEND` header + path, `DATA` header + file
bytes and `DONE` header (length = mtime) into one buffer, writes it once, and
on success adds `data.length` to `total_bytes`. -/
def SendSmallFile (sc : SC) (pathAndMode : List Nat) (data : List Nat) (mtime : Nat)
    (writeOk : Bool) : SendSmallRes :=
  if pathAndMode.length > 1024 then ⟨false, [], sc⟩
  else
    let buf := syncRequestHeader ID_SEND pathAndMode.length ++ pathAndMode ++
               syncRequestHeader ID_DATA data.length ++ data ++
               syncRequestHeader ID_DONE mtime
    if writeOk then ⟨true, [buf], { sc with total_bytes := sc.total_bytes + data.length }⟩
    else ⟨false, [buf], sc⟩

/-- A `msg.stat` reply as read off the wire: `id`, `mode`, `size`, `time`.
`none` at a use site models `ReadFdExactly` failing. -/
structure StatMsg where
  id : Nat
  mode : Nat
  size : Nat
  time : Nat
  deriving DecidableEq

/-- `sync_finish_stat`: fails if the read fails or the reply id is not
`ID_STAT`; otherwise yields the reply fields. -/
def sync_finish_stat (reply : Option StatMsg) : Option StatMsg :=
  match reply with
  | none => none
  | some m => if m.id = ID_STAT then some m else none

/-- `sync_stat`: `SendRequest ID_STAT` then `sync_finish_stat`; the
connection state is returned untouched (the source never modifies
`total_bytes` here). -/
def sync_stat (sc : SC) (path : List Nat) (sendWriteOk : Bool) (reply : Option StatMsg) :
    SC × Option StatMsg :=
  if (SendRequest ID_STAT path sendWriteOk).ok then (sc, sync_finish_stat reply)
  else (sc, none)

/-- One framed server reply inside a RECV transaction: the `msg.data` header
fields `id` and `size`, plus whether the payload read that would follow a
DATA header succeeds (`ReadFdExactly` of `size` bytes). -/
structure RFrame where
  id : Nat
  size : Nat
  payloadOk : Bool
  deriving DecidableEq

/-- Outcome of `sync_recv`: return value, whether the destination file exists
on disk afterwards, the connection state, whether a progress percentage was
computed with a zero divisor, and whether `sc.Error`/`ReportCopyFailure` was
invoked. -/
structure RecvRes where
  ok : Bool
  fileExists : Bool
  sc : SC
  divZero : Bool
  erred : Bool
  deriving DecidableEq

/-- The receive loop of `sync_recv`, entered after the destination file has
been created.  `size` is the size reported by the preceding remote STAT (the
divisor of the progress percentage), `ws` the outcomes of the successive
local `WriteFdExactly` calls (`headD true`: unlisted writes succeed), and the
frame list the server's replies — exhausting it models a short header read.
Every failure path closes the destination and unlinks it, exactly as in the
source. -/
def recvLoop (size : Nat) (sc : SC) (ws : List Bool) (dz er : Bool) :
    List RFrame → RecvRes
  | [] => ⟨false, false, sc, dz, er⟩
  | f :: rest =>
    if f.id = ID_DONE then ⟨true, true, sc, dz, er⟩
    else if f.id ≠ ID_DATA then ⟨false, false, sc, dz, true⟩
    else if f.size > sc.max then ⟨false, false, sc, dz, true⟩
    else if f.payloadOk = false then ⟨false, false, sc, dz, er⟩
    else if ws.headD true = false then ⟨false, false, sc, dz, true⟩
    else recvLoop size { sc with total_bytes := sc.total_bytes + f.size } ws.tail
           (dz || decide (size = 0)) er rest

/-- `sync_recv`: remote STAT for the size, `SendRequest ID_RECV`, unlink and
create the destination, then the receive loop.  `preExisting` is whether the
destination path already held a file before the call (it is only reported
back when the function fails before reaching the unlink). -/
def sync_recv (sc : SC) (preExisting : Bool) (rpath : List Nat)
    (statSendOk : Bool) (statReply : Option StatMsg)
    (recvSendOk : Bool) (createOk : Bool)
    (ws : List Bool) (frames : List RFrame) : RecvRes :=
  match (sync_stat sc rpath statSendOk statReply).2 with
  | none => ⟨false, preExisting, sc, false, false⟩
  | some st =>
    if (SendRequest ID_RECV rpath recvSendOk).ok = false then
      ⟨false, preExisting, sc, false, false⟩
    else if createOk = false then ⟨false, false, sc, false, true⟩
    else recvLoop st.size sc ws false false frames

/-- One framed server reply inside a LIST transaction: the `msg.dent` header
fields, plus whether the name read that would follow a DENT header succeeds,
and the name bytes it would deliver. -/
structure LsFrame where
  id : Nat
  mode : Nat
  size : Nat
  time : Nat
  namelen : Nat
  nameOk : Bool
  name : List Nat
  deriving DecidableEq

/-- One callback invocation of `sync_ls`: the four arguments passed. -/
structure DentEntry where
  mode : Nat
  size : Nat
  time : Nat
  name : List Nat
  deriving DecidableEq

/-- The reply loop of `sync_ls`: DONE terminates with success; a non-DENT id,
a namelen above 256, or a failed read terminates with failure; otherwise the
callback fires and the loop continues.  The entry list collects the callback
invocations in order; the connection state is passed through untouched. -/
def lsLoop (sc : SC) : List LsFrame → SC × Bool × List DentEntry
  | [] => (sc, false, [])
  | f :: rest =>
    if f.id = ID_DONE then (sc, true, [])
    else if f.id ≠ ID_DENT then (sc, false, [])
    else if f.namelen > 256 then (sc, false, [])
    else if f.nameOk = false then (sc, false, [])
    else
      let r := lsLoop sc rest
      (r.1, r.2.1, ⟨f.mode, f.size, f.time, f.name⟩ :: r.2.2)

/-- `sync_ls`: `SendRequest ID_LIST` then the reply loop. -/
def sync_ls (sc : SC) (path : List Nat) (sendWriteOk : Bool) (frames : List LsFrame) :
    SC × Bool × List DentEntry :=
  if (SendRequest ID_LIST path sendWriteOk).ok then lsLoop sc frames
  else (sc, false, [])

/-- A LIST reply frame the loop consumes and turns into a callback: a DENT
with an in-range name length whose name read succeeds. -/
def goodDent (f : LsFrame) : Bool :=
  decide (f.id = ID_DENT) && decide (f.namelen ≤ 256) && f.nameOk

/-- Specification side of the LIST claim: the entries delivered are exactly
the maximal prefix of well-formed DENT frames, in arrival order. -/
def lsEntriesSpec (frames : List LsFrame) : List DentEntry :=
  (frames.takeWhile goodDent).map fun f => ⟨f.mode, f.size, f.time, f.name⟩

/-- Specification side of the LIST claim: the transaction succeeds exactly
when the frame after the well-formed DENT prefix is a DONE. -/
def lsOkSpec (frames : List LsFrame) : Bool :=
  match frames.dropWhile goodDent with
  | [] => false
  | f :: _ => decide (f.id = ID_DONE)

/-- One `adb_read` result in the large-file loop: `ok n` is a successful read
of `n` (positive) bytes, `err` a negative return; end of list is EOF. -/
inductive ChunkRead where
  | ok (n : Nat)
  | err
  deriving DecidableEq

/-- Outcome of `SendLargeFile`: return value, connection state, and whether a
progress percentage was computed with a zero divisor. -/
structure LargeRes where
  ok : Bool
  sc : SC
  divZero : Bool
  deriving DecidableEq

/-- The chunk loop of `SendLargeFile`: each successful read is written as one
DATA frame (`writeOks` lists those write outcomes), `total_bytes` and
`bytesCopied` advance by the chunk size, and the progress percentage divides
`bytesCopied * 100` by `totalSize` (from the local stat).  EOF sends the DONE
frame, whose write outcome is `doneOk`. -/
def sendLargeLoop (sc : SC) (totalSize bytesCopied : Nat) (dz : Bool)
    (writeOks : List Bool) (doneOk : Bool) : List ChunkRead → LargeRes
  | [] => ⟨doneOk, sc, dz⟩
  | .err :: _ => ⟨false, sc, dz⟩
  | .ok n :: rest =>
    if writeOks.headD true = false then ⟨false, sc, dz⟩
    else sendLargeLoop { sc with total_bytes := sc.total_bytes + n } totalSize
           (bytesCopied + n) (dz || decide (totalSize = 0)) writeOks.tail doneOk rest

/-- `SendLargeFile`: `SendRequest ID_SEND`, local stat (yielding `totalSize`),
open, then the chunk loop. -/
def SendLargeFile (sc : SC) (pathAndMode : List Nat) (sendWriteOk : Bool)
    (statOk : Bool) (totalSize : Nat) (openOk : Bool)
    (writeOks : List Bool) (doneOk : Bool) (chunks : List ChunkRead) : LargeRes :=
  if (SendRequest ID_SEND pathAndMode sendWriteOk).ok = false then ⟨false, sc, false⟩
  else if statOk = false then ⟨false, sc, false⟩
  else if openOk = false then ⟨false, sc, false⟩
  else sendLargeLoop sc totalSize 0 false writeOks doneOk chunks

/-- Which body-transfer routine `sync_send` invoked. -/
inductive SendForm where
  | burst
  | streaming
  deriving DecidableEq

/-- Outcome of `sync_send`: return value, the transfer form actually invoked
(`none` when the function failed before reaching one), and the connection
state. -/
structure SyncSendRes where
  ok : Bool
  form : Option SendForm
  sc : SC
  deriving DecidableEq

/-- `sync_send`: a symlink's target is sent with `SendSmallFile`; a
non-regular non-symlink fails; a regular file is stat'ed and dispatched on
`st.st_size < SYNC_DATA_MAX` to `SendSmallFile` (after reading the whole
file) or to `SendLargeFile`; both continue into `CopyDone` (outcome
`copyDoneOk`). -/
def sync_send (sc : SC) (pathAndMode : List Nat) (mode : Nat) (mtime : Nat)
    (linkOk : Bool) (linkData : List Nat)
    (statOk : Bool) (stSize : Nat)
    (readOk : Bool) (fileData : List Nat)
    (smallWriteOk : Bool)
    (largeSendOk largeStatOk largeOpenOk : Bool)
    (largeWriteOks : List Bool) (largeDoneOk : Bool) (chunks : List ChunkRead)
    (copyDoneOk : Bool) : SyncSendRes :=
  if S_ISLNK mode then
    if linkOk = false then ⟨false, none, sc⟩
    else
      let r := SendSmallFile sc pathAndMode linkData mtime smallWriteOk
      if r.ok = false then ⟨false, some .burst, r.sc⟩
      else ⟨copyDoneOk, some .burst, r.sc⟩
  else if ¬ S_ISREG mode then ⟨false, none, sc⟩
  else if statOk = false then ⟨false, none, sc⟩
  else if stSize < SYNC_DATA_MAX then
    if readOk = false then ⟨false, none, sc⟩
    else
      let r := SendSmallFile sc pathAndMode fileData mtime smallWriteOk
      if r.ok = false then ⟨false, some .burst, r.sc⟩
      else ⟨copyDoneOk, some .burst, r.sc⟩
  else
    let r := SendLargeFile sc pathAndMode largeSendOk largeStatOk stSize largeOpenOk
               largeWriteOks largeDoneOk chunks
    if r.ok = false then ⟨false, some .streaming, r.sc⟩
    else ⟨copyDoneOk, some .streaming, r.sc⟩

/-- The `copyinfo` record of the source. -/
structure copyinfo where
  src : String
  dst : String
  time : Nat
  mode : Nat
  size : Nat
  flag : Nat
  deriving DecidableEq

/-- The body of the skip-decision loop of `copy_local_dir_remote`
(check_timestamps phase): on a size match, the flag is set when the file-type
bits of `ci.mode &&& mode` (local AND remote) are regular and the timestamps
are equal, or are symlink and the remote timestamp is not older. -/
def updateSkip (ci : copyinfo) (timestamp mode size : Nat) : copyinfo :=
  if size = ci.size then
    if (S_ISREG (ci.mode &&& mode) ∧ timestamp = ci.time) ∨
       (S_ISLNK (ci.mode &&& mode) ∧ ci.time ≤ timestamp) then
      { ci with flag := 1 }
    else ci
  else ci

/-- Stream events of the check_timestamps phase: a STAT request written for a
destination, or a STAT reply read. -/
inductive SkipEv where
  | sendStat (dst : String)
  | recvStat
  deriving DecidableEq

/-- First loop of the check_timestamps phase: one `SendRequest ID_STAT` per
item; a failed send aborts the phase. -/
def statSendLoop : List copyinfo → List Bool → List SkipEv × Bool
  | [], _ => ([], true)
  | ci :: cis, oks =>
    if oks.headD true then
      let r := statSendLoop cis oks.tail
      (SkipEv.sendStat ci.dst :: r.1, r.2)
    else ([SkipEv.sendStat ci.dst], false)

/-- Second loop of the check_timestamps phase: one `sync_finish_stat` per
item, applied to the items in list order; a failed read aborts the phase. -/
def statReadLoop : List copyinfo → List (Option StatMsg) →
    List SkipEv × Option (List copyinfo)
  | [], _ => ([], some [])
  | ci :: cis, rs =>
    match sync_finish_stat (rs.headD none) with
    | none => ([SkipEv.recvStat], none)
    | some st =>
      let r := statReadLoop cis rs.tail
      (SkipEv.recvStat :: r.1, r.2.map fun l => updateSkip ci st.time st.mode st.size :: l)

/-- The check_timestamps phase of `copy_local_dir_remote`: the send loop runs
to completion first, then the read loop; the returned event list is the
stream activity in order, the returned item list the updated `filelist`
(`none` when the phase returned false). -/
def checkTimestampsPhase (items : List copyinfo) (sendOks : List Bool)
    (replies : List (Option StatMsg)) : List SkipEv × Option (List copyinfo) :=
  let s := statSendLoop items sendOks
  if s.2 then
    let r := statReadLoop items replies
    (s.1 ++ r.1, r.2)
  else (s.1, none)

/-- The session state consulted at destruction: whether `adb_connect`
produced a valid fd, and (ghost, for the claims) whether any operation on the
session ended in error.  The source tracks no such error flag. -/
structure SessionState where
  fd_valid : Bool
  opErrored : Bool
  deriving DecidableEq

/-- Actions of `~SyncConnection`: whether a QUIT request was written to the
stream, whether `ReadOrderlyShutdown` drained it, whether the fd was closed. -/
structure DtorActs where
  quitSent : Bool
  drained : Bool
  closed : Bool
  deriving DecidableEq

/-- `~SyncConnection`: returns without any action when the fd is invalid;
otherwise sends QUIT (`SendRequest ID_QUIT ""`, write outcome `quitWriteOk`),
drains the stream exactly when that write succeeded, and closes the fd.  The
destructor consults only fd validity, never `opErrored`. -/
def syncConnectionDtor (s : SessionState) (quitWriteOk : Bool) : DtorActs :=
  if s.fd_valid = false then ⟨false, false, false⟩
  else
    let q := SendRequest ID_QUIT [] quitWriteOk
    ⟨q.ok, q.ok, true⟩

theorem ID_DATA_ne_DONE : ID_DATA ≠ ID_DONE := by decide

theorem ID_DONE_ne_DENT : ID_DONE ≠ ID_DENT := by decide

theorem ID_DENT_ne_DONE : ID_DENT ≠ ID_DONE := by decide

/-- In the receive loop the destination file survives exactly when the loop
succeeds: every failure branch unlinks it. -/
theorem recvLoop_file_eq_ok (size : Nat) :
    ∀ (frames : List RFrame) (sc : SC) (ws : List Bool) (dz er : Bool),
      (recvLoop size sc ws dz er frames).fileExists = (recvLoop size sc ws dz er frames).ok := by
  intro frames
  induction frames with
  | nil => intro sc ws dz er; rfl
  | cons f rest ih =>
    intro sc ws dz er
    simp only [recvLoop]
    split
    · rfl
    split
    · rfl
    split
    · rfl
    split
    · rfl
    split
    · rfl
    exact ih _ _ _ _

/-- C2: on every failure path of `sync_recv` after the destination file has
been created — short header read, non-DATA/non-DONE frame, oversized DATA,
short payload read, or local write failure — the function closes and unlinks
the destination and returns false, so no partial destination file remains.
The hypotheses state that the remote STAT and the `ID_RECV` request
succeeded and (via the `true` argument) that `adb_creat` succeeded, i.e.
that the failure happened after creation. -/
theorem sync_recv_failure_unlinks_destination
    (sc : SC) (pre : Bool) (rp : List Nat) (sOk : Bool) (rep : Option StatMsg)
    (rOk : Bool) (ws : List Bool) (frames : List RFrame)
    (hstat : (sync_stat sc rp sOk rep).2.isSome = true)
    (hsend : (SendRequest ID_RECV rp rOk).ok = true)
    (hfail : (sync_recv sc pre rp sOk rep rOk true ws frames).ok = false) :
    (sync_recv sc pre rp sOk rep rOk true ws frames).fileExists = false := by
  revert hfail
  simp only [sync_recv]
  rcases hst : (sync_stat sc rp sOk rep).2 with _ | st
  · rw [hst] at hstat; simp at hstat
  · simp only [hsend, if_neg (show ¬ (true = false) by decide)]
    intro hfail
    rw [recvLoop_file_eq_ok]
    exact hfail

/-- Witness for C2: a stream whose first frame has an unknown id makes the
receive fail, and the destination file is gone. -/
theorem sync_recv_failure_unlinks_destination_witness :
    (sync_stat ⟨0, SYNC_DATA_MAX⟩ [47] true (some ⟨ID_STAT, 33188, 3, 7⟩)).2.isSome = true ∧
    (SendRequest ID_RECV [47] true).ok = true ∧
    (sync_recv ⟨0, SYNC_DATA_MAX⟩ true [47] true (some ⟨ID_STAT, 33188, 3, 7⟩) true true []
      [⟨ID_FAIL, 2, true⟩]).ok = false ∧
    (sync_recv ⟨0, SYNC_DATA_MAX⟩ true [47] true (some ⟨ID_STAT, 33188, 3, 7⟩) true true []
      [⟨ID_FAIL, 2, true⟩]).fileExists = false :=
  ⟨by decide, by decide, by decide,
   sync_recv_failure_unlinks_destination _ _ _ _ _ _ _ _ (by decide) (by decide) (by decide)⟩

/-- C3: a DATA frame whose length exceeds `sc.max` is fatal: the receive
loop reports an error (`erred = true`), unlinks the destination
(`fileExists = false`) and returns false; the result is a constant
independent of the frame's `payloadOk` flag and of the remaining stream, so
the frame's payload is never read. -/
theorem sync_recv_oversized_data_fatal
    (size : Nat) (sc : SC) (ws : List Bool) (dz er : Bool) (sz : Nat) (pok : Bool)
    (rest : List RFrame) (h : sz > sc.max) :
    recvLoop size sc ws dz er (⟨ID_DATA, sz, pok⟩ :: rest) =
      ⟨false, false, sc, dz, true⟩ := by
  simp [recvLoop, ID_DATA_ne_DONE, h]

/-- Witness for C3: with `sc.max = SYNC_DATA_MAX`, a DATA frame of declared
size `SYNC_DATA_MAX + 1` is rejected with unlink, without touching the rest
of the stream. -/
theorem sync_recv_oversized_data_fatal_witness :
    SYNC_DATA_MAX + 1 > (⟨0, SYNC_DATA_MAX⟩ : SC).max ∧
    recvLoop 9 ⟨0, SYNC_DATA_MAX⟩ [] false false
        [⟨ID_DATA, SYNC_DATA_MAX + 1, true⟩, ⟨ID_DONE, 0, true⟩] =
      ⟨false, false, ⟨0, SYNC_DATA_MAX⟩, false, true⟩ :=
  ⟨by decide,
   sync_recv_oversized_data_fatal 9 ⟨0, SYNC_DATA_MAX⟩ [] false false _ true
     [⟨ID_DONE, 0, true⟩] (by decide)⟩

/-- C4: `SendRequest` and `SendSmallFile` reject a path (or `path,mode`
string) longer than 1024 bytes: they return false having performed no
transport write at all. -/
theorem long_path_rejected_before_write
    (id : Nat) (path : List Nat) (w : Bool) (sc : SC) (data : List Nat) (mtime : Nat)
    (h : path.length > 1024) :
    SendRequest id path w = ⟨false, []⟩ ∧
    SendSmallFile sc path data mtime w = ⟨false, [], sc⟩ := by
  constructor
  · simp [SendRequest, h]
  · simp [SendSmallFile, h]

/-- Witness for C4: a 1025-byte path is rejected by both primitives. -/
theorem long_path_rejected_before_write_witness :
    (List.replicate 1025 97).length > 1024 ∧
    SendRequest ID_STAT (List.replicate 1025 97) true = ⟨false, []⟩ ∧
    SendSmallFile ⟨0, SYNC_DATA_MAX⟩ (List.replicate 1025 97) [] 0 true =
      ⟨false, [], ⟨0, SYNC_DATA_MAX⟩⟩ :=
  ⟨by simp only [List.length_replicate]; omega,
   long_path_rejected_before_write ID_STAT (List.replicate 1025 97) true
    ⟨0, SYNC_DATA_MAX⟩ [] 0 (by simp only [List.length_replicate]; omega)⟩

/-- C6 counterexample: a session on which an operation ended in error
(`opErrored = true`) but whose fd is valid still sends QUIT and still drains
the stream — the destructor consults only fd validity, the source keeps no
error flag at all. -/
theorem destructor_quit_despite_error_counterexample :
    (⟨true, true⟩ : SessionState).opErrored = true ∧
    (syncConnectionDtor ⟨true, true⟩ true).quitSent = true ∧
    (syncConnectionDtor ⟨true, true⟩ true).drained = true := by
  decide

/-- C6 amended: on destruction, QUIT is written and the stream drained
exactly when the connect-time fd is valid and the QUIT write succeeds;
whether any operation on the session ended in error plays no role. -/
theorem destructor_depends_only_on_fd_validity (s : SessionState) (w : Bool) :
    (syncConnectionDtor s w).quitSent = (s.fd_valid && w) ∧
    (syncConnectionDtor s w).drained = (s.fd_valid && w) ∧
    (syncConnectionDtor s w).closed = s.fd_valid ∧
    syncConnectionDtor s w = syncConnectionDtor ⟨s.fd_valid, false⟩ w := by
  obtain ⟨v, e⟩ := s
  cases v <;> cases e <;> cases w <;> decide

/-- C10: both unguarded progress divisions are reachable with a zero divisor.
In `sync_recv`, a remote STAT reply of size 0 followed by a DATA chunk makes
the loop evaluate `bytes_copied * 100 / size` with `size = 0` (and the pull
still returns true); in `SendLargeFile`'s loop, a local stat of size 0
followed by a successful read does the same with `total_size = 0`. -/
theorem progress_divisor_zero_reachable :
    (sync_recv ⟨0, SYNC_DATA_MAX⟩ false [47] true (some ⟨ID_STAT, 33188, 0, 7⟩) true true []
      [⟨ID_DATA, 1, true⟩, ⟨ID_DONE, 0, true⟩]).divZero = true ∧
    (sync_recv ⟨0, SYNC_DATA_MAX⟩ false [47] true (some ⟨ID_STAT, 33188, 0, 7⟩) true true []
      [⟨ID_DATA, 1, true⟩, ⟨ID_DONE, 0, true⟩]).ok = true ∧
    (sendLargeLoop ⟨0, SYNC_DATA_MAX⟩ 0 0 false [] true [ChunkRead.ok 1]).divZero = true := by
  decide

/-- `total_bytes` never decreases across the receive loop. -/
theorem recvLoop_total_bytes_mono (size : Nat) :
    ∀ (frames : List RFrame) (sc : SC) (ws : List Bool) (dz er : Bool),
      sc.total_bytes ≤ (recvLoop size sc ws dz er frames).sc.total_bytes := by
  intro frames
  induction frames with
  | nil => intro sc ws dz er; exact le_rfl
  | cons f rest ih =>
    intro sc ws dz er
    simp only [recvLoop]
    split
    · exact le_rfl
    split
    · exact le_rfl
    split
    · exact le_rfl
    split
    · exact le_rfl
    split
    · exact le_rfl
    exact le_trans (Nat.le_add_right _ _)
      (ih { sc with total_bytes := sc.total_bytes + f.size } ws.tail
        (dz || decide (size = 0)) er)

/-- `total_bytes` never decreases across the large-file chunk loop. -/
theorem sendLargeLoop_total_bytes_mono :
    ∀ (chunks : List ChunkRead) (sc : SC) (ts bc : Nat) (dz : Bool) (ws : List Bool)
      (dOk : Bool),
      sc.total_bytes ≤ (sendLargeLoop sc ts bc dz ws dOk chunks).sc.total_bytes := by
  intro chunks
  induction chunks with
  | nil => intro sc ts bc dz ws dOk; exact le_rfl
  | cons c rest ih =>
    intro sc ts bc dz ws dOk
    cases c with
    | err => exact le_rfl
    | ok n =>
      simp only [sendLargeLoop]
      split
      · exact le_rfl
      · exact le_trans (Nat.le_add_right _ _)
          (ih { sc with total_bytes := sc.total_bytes + n } ts (bc + n)
            (dz || decide (ts = 0)) ws.tail dOk)

/-- The LIST reply loop passes the connection state through untouched. -/
theorem lsLoop_sc_unchanged :
    ∀ (frames : List LsFrame) (sc : SC), (lsLoop sc frames).1 = sc := by
  intro frames
  induction frames with
  | nil => intro sc; rfl
  | cons f rest ih =>
    intro sc
    simp only [lsLoop]
    split
    · rfl
    split
    · rfl
    split
    · rfl
    split
    · rfl
    exact ih sc

/-- C9: `total_bytes` is monotonically non-decreasing across every operation
of the connection: the small-file send, the large-file chunk loop and its
wrapper, the receive loop and `sync_recv`, and the STAT and LIST
transactions (which leave it unchanged). -/
theorem total_bytes_monotone :
    (∀ (sc : SC) (p d : List Nat) (m : Nat) (w : Bool),
        sc.total_bytes ≤ (SendSmallFile sc p d m w).sc.total_bytes) ∧
    (∀ (sc : SC) (ts bc : Nat) (dz : Bool) (ws : List Bool) (dOk : Bool)
        (chunks : List ChunkRead),
        sc.total_bytes ≤ (sendLargeLoop sc ts bc dz ws dOk chunks).sc.total_bytes) ∧
    (∀ (sc : SC) (pm : List Nat) (sOk stOk : Bool) (tsz : Nat) (oOk : Bool)
        (ws : List Bool) (dOk : Bool) (chunks : List ChunkRead),
        sc.total_bytes ≤ (SendLargeFile sc pm sOk stOk tsz oOk ws dOk chunks).sc.total_bytes) ∧
    (∀ (size : Nat) (sc : SC) (ws : List Bool) (dz er : Bool) (frames : List RFrame),
        sc.total_bytes ≤ (recvLoop size sc ws dz er frames).sc.total_bytes) ∧
    (∀ (sc : SC) (pre : Bool) (rp : List Nat) (sOk : Bool) (rep : Option StatMsg)
        (rOk cOk : Bool) (ws : List Bool) (frames : List RFrame),
        sc.total_bytes ≤ (sync_recv sc pre rp sOk rep rOk cOk ws frames).sc.total_bytes) ∧
    (∀ (sc : SC) (path : List Nat) (sOk : Bool) (rep : Option StatMsg),
        (sync_stat sc path sOk rep).1 = sc) ∧
    (∀ (sc : SC) (path : List Nat) (sOk : Bool) (frames : List LsFrame),
        (sync_ls sc path sOk frames).1 = sc) := by
  refine ⟨?_, ?_, ?_, ?_, ?_, ?_, ?_⟩
  · intro sc p d m w
    simp only [SendSmallFile]
    split
    · exact le_rfl
    split
    · exact Nat.le_add_right _ _
    · exact le_rfl
  · intro sc ts bc dz ws dOk chunks
    exact sendLargeLoop_total_bytes_mono chunks sc ts bc dz ws dOk
  · intro sc pm sOk stOk tsz oOk ws dOk chunks
    simp only [SendLargeFile]
    split
    · exact le_rfl
    split
    · exact le_rfl
    split
    · exact le_rfl
    exact sendLargeLoop_total_bytes_mono chunks sc tsz 0 false ws dOk
  · intro size sc ws dz er frames
    exact recvLoop_total_bytes_mono size frames sc ws dz er
  · intro sc pre rp sOk rep rOk cOk ws frames
    simp only [sync_recv]
    cases h : (sync_stat sc rp sOk rep).2 with
    | none => simp [h]
    | some st =>
      simp only [h]
      split
      · exact le_rfl
      split
      · exact le_rfl
      exact recvLoop_total_bytes_mono st.size frames sc ws false false
  · intro sc path sOk rep
    simp only [sync_stat]
    split <;> rfl
  · intro sc path sOk frames
    simp only [sync_ls]
    split
    · exact lsLoop_sc_unchanged frames sc
    · rfl

/-- C1 counterexample: a local regular file (mode 0o100644) of size 0 and
mtime 5, whose remote STAT reply has equal size (0) and equal timestamp (5)
but mode 0 (a nonexistent remote object), is NOT skipped: the source tests
`S_ISREG(ci.mode & mode)` — the AND of local and remote modes — which is 0
here, so the flag stays 0 although the claim requires skip (flag 1) whenever
the local item is regular and the timestamps are equal. -/
theorem push_skip_mode_mask_counterexample :
    S_ISREG ((⟨"a", "b", 5, 0o100644, 0, 0⟩ : copyinfo).mode) ∧
    (0 : Nat) = (⟨"a", "b", 5, 0o100644, 0, 0⟩ : copyinfo).size ∧
    (5 : Nat) = (⟨"a", "b", 5, 0o100644, 0, 0⟩ : copyinfo).time ∧
    (updateSkip ⟨"a", "b", 5, 0o100644, 0, 0⟩ 5 0 0).flag = 0 := by
  decide

/-- C1 amended: for an item whose flag is still clear, the skip phase sets
the flag exactly when the remote size equals the local size and either the
file-type bits of `ci.mode &&& mode` (local AND remote) are the regular-file
type with equal timestamps, or are the symlink type with the remote
timestamp not older than the local one. -/
theorem push_skip_decision (ci : copyinfo) (timestamp mode size : Nat)
    (h : ci.flag = 0) :
    ((updateSkip ci timestamp mode size).flag = 1 ↔
      (size = ci.size ∧
        ((S_ISREG (ci.mode &&& mode) ∧ timestamp = ci.time) ∨
         (S_ISLNK (ci.mode &&& mode) ∧ ci.time ≤ timestamp)))) := by
  unfold updateSkip
  by_cases h1 : size = ci.size
  · by_cases h2 : (S_ISREG (ci.mode &&& mode) ∧ timestamp = ci.time) ∨
        (S_ISLNK (ci.mode &&& mode) ∧ ci.time ≤ timestamp)
    · simp [h1, h2]
    · simp [h1, h2, h]
  · simp [h1, h]

/-- Witness for C1 (amended): a regular file whose remote copy matches in
size and mtime is skipped. -/
theorem push_skip_decision_witness :
    (⟨"x", "y", 7, 0o100644, 10, 0⟩ : copyinfo).flag = 0 ∧
    ((updateSkip ⟨"x", "y", 7, 0o100644, 10, 0⟩ 7 0o100644 10).flag = 1 ↔
      (10 = (⟨"x", "y", 7, 0o100644, 10, 0⟩ : copyinfo).size ∧
        ((S_ISREG ((⟨"x", "y", 7, 0o100644, 10, 0⟩ : copyinfo).mode &&& 0o100644) ∧
            7 = (⟨"x", "y", 7, 0o100644, 10, 0⟩ : copyinfo).time) ∨
         (S_ISLNK ((⟨"x", "y", 7, 0o100644, 10, 0⟩ : copyinfo).mode &&& 0o100644) ∧
            (⟨"x", "y", 7, 0o100644, 10, 0⟩ : copyinfo).time ≤ 7)))) :=
  ⟨rfl, push_skip_decision ⟨"x", "y", 7, 0o100644, 10, 0⟩ 7 0o100644 10 rfl⟩

/-- The regular-file and symlink type bits are mutually exclusive. -/
theorem S_ISREG_not_S_ISLNK (m : Nat) (h : S_ISREG m) : ¬ S_ISLNK m := by
  unfold S_ISREG at h
  unfold S_ISLNK
  rw [h]
  decide

/-- For a regular file with successful stat and read, a size below the
ceiling dispatches `sync_send` to the burst form. -/
theorem sync_send_form_small
    (sc : SC) (pm : List Nat) (mode mtime : Nat) (lOk : Bool) (ld : List Nat)
    (stSize : Nat) (fd : List Nat) (sW : Bool)
    (lsOk lstOk loOk : Bool) (lws : List Bool) (ldOk : Bool) (chunks : List ChunkRead)
    (cd : Bool) (hreg : S_ISREG mode) (hsz : stSize < SYNC_DATA_MAX) :
    (sync_send sc pm mode mtime lOk ld true stSize true fd sW lsOk lstOk loOk lws ldOk
        chunks cd).form = some SendForm.burst := by
  have hnl : ¬ S_ISLNK mode := S_ISREG_not_S_ISLNK mode hreg
  simp only [sync_send]
  rw [if_neg hnl, if_neg (not_not_intro hreg), if_neg (show ¬ (true = false) by decide),
    if_pos hsz, if_neg (show ¬ (true = false) by decide)]
  split <;> rfl

/-- For a regular file with successful stat, a size at or above the ceiling
dispatches `sync_send` to the streaming form. -/
theorem sync_send_form_large
    (sc : SC) (pm : List Nat) (mode mtime : Nat) (lOk : Bool) (ld : List Nat)
    (stSize : Nat) (fd : List Nat) (sW : Bool)
    (lsOk lstOk loOk : Bool) (lws : List Bool) (ldOk : Bool) (chunks : List ChunkRead)
    (cd : Bool) (hreg : S_ISREG mode) (hsz : ¬ stSize < SYNC_DATA_MAX) :
    (sync_send sc pm mode mtime lOk ld true stSize true fd sW lsOk lstOk loOk lws ldOk
        chunks cd).form = some SendForm.streaming := by
  have hnl : ¬ S_ISLNK mode := S_ISREG_not_S_ISLNK mode hreg
  simp only [sync_send]
  rw [if_neg hnl, if_neg (not_not_intro hreg), if_neg (show ¬ (true = false) by decide),
    if_neg hsz]
  split <;> rfl

/-- C5: for a regular local file whose stat succeeds (and, on the small
branch, whose read into memory succeeds), `sync_send` dispatches on
`st.st_size < SYNC_DATA_MAX`: strictly smaller files go through the
single-write burst (`SendSmallFile`), all others through the chunked stream
(`SendLargeFile`).  In particular size `SYNC_DATA_MAX - 1` takes the burst
form and size `SYNC_DATA_MAX` the streaming form. -/
theorem sync_send_small_large_boundary
    (sc : SC) (pm : List Nat) (mode mtime : Nat) (lOk : Bool) (ld : List Nat)
    (stSize : Nat) (fd : List Nat) (sW : Bool)
    (lsOk lstOk loOk : Bool) (lws : List Bool) (ldOk : Bool) (chunks : List ChunkRead)
    (cd : Bool) (hreg : S_ISREG mode) :
    ((sync_send sc pm mode mtime lOk ld true stSize true fd sW lsOk lstOk loOk lws ldOk
        chunks cd).form = some SendForm.burst ↔ stSize < SYNC_DATA_MAX) ∧
    ((sync_send sc pm mode mtime lOk ld true stSize true fd sW lsOk lstOk loOk lws ldOk
        chunks cd).form = some SendForm.streaming ↔ SYNC_DATA_MAX ≤ stSize) := by
  by_cases hsz : stSize < SYNC_DATA_MAX
  · rw [sync_send_form_small sc pm mode mtime lOk ld stSize fd sW lsOk lstOk loOk lws
      ldOk chunks cd hreg hsz]
    constructor
    · simp [hsz]
    · constructor
      · intro hc
        simp at hc
      · intro hc
        omega
  · rw [sync_send_form_large sc pm mode mtime lOk ld stSize fd sW lsOk lstOk loOk lws
      ldOk chunks cd hreg hsz]
    constructor
    · constructor
      · intro hc
        simp at hc
      · intro hc
        omega
    · simp [Nat.le_of_not_lt hsz]

/-- Witness for C5: with stat size exactly `SYNC_DATA_MAX`, the streaming
form is chosen and the burst form is not. -/
theorem sync_send_small_large_boundary_witness :
    S_ISREG 0o100644 ∧
    ((sync_send ⟨0, SYNC_DATA_MAX⟩ [47] 0o100644 7 true [] true SYNC_DATA_MAX true [] true
        true true true [] true [] true).form = some SendForm.burst ↔
      SYNC_DATA_MAX < SYNC_DATA_MAX) ∧
    ((sync_send ⟨0, SYNC_DATA_MAX⟩ [47] 0o100644 7 true [] true SYNC_DATA_MAX true [] true
        true true true [] true [] true).form = some SendForm.streaming ↔
      SYNC_DATA_MAX ≤ SYNC_DATA_MAX) :=
  ⟨by decide,
   sync_send_small_large_boundary ⟨0, SYNC_DATA_MAX⟩ [47] 0o100644 7 true [] SYNC_DATA_MAX
     [] true true true true [] true [] true (by decide)⟩

/-- If the STAT-request loop completed, it issued exactly one STAT request
per item, in list order. -/
theorem statSendLoop_complete :
    ∀ (items : List copyinfo) (oks : List Bool),
      (statSendLoop items oks).2 = true →
      (statSendLoop items oks).1 = items.map fun ci => SkipEv.sendStat ci.dst := by
  intro items
  induction items with
  | nil => intro oks h; rfl
  | cons ci cis ih =>
    intro oks h
    cases hk : oks.headD true with
    | false =>
      rw [statSendLoop] at h
      rw [hk] at h
      simp at h
    | true =>
      rw [statSendLoop] at h ⊢
      rw [hk] at h ⊢
      simp only [if_true, List.map_cons] at h ⊢
      rw [ih oks.tail h]

/-- If every reply is a well-formed `ID_STAT` message and there are enough of
them, the STAT-reply loop reads exactly one reply per item and applies the
n-th reply to the n-th item. -/
theorem statReadLoop_spec :
    ∀ (items : List copyinfo) (replies : List StatMsg),
      (∀ r ∈ replies, r.id = ID_STAT) →
      items.length ≤ replies.length →
      statReadLoop items (replies.map some) =
        (items.map fun _ => SkipEv.recvStat,
         some (List.zipWith (fun ci r => updateSkip ci r.time r.mode r.size) items replies)) := by
  intro items
  induction items with
  | nil => intro replies h1 h2; rfl
  | cons ci cis ih =>
    intro replies h1 h2
    cases replies with
    | nil => simp at h2
    | cons r rs =>
      have hid : r.id = ID_STAT := h1 r (List.mem_cons_self r rs)
      rw [statReadLoop]
      simp only [List.map_cons, List.headD_cons, List.tail_cons]
      rw [sync_finish_stat]
      rw [if_pos hid]
      rw [ih rs (fun x hx => h1 x (List.mem_cons_of_mem r hx)) (Nat.le_of_succ_le_succ h2)]
      rfl

/-- C7: in the skip-check phase of a timestamped push, all STAT requests are
written before any STAT reply is read (the event trace is the request list
followed by the reply reads), and the n-th reply is applied to the n-th
CopyItem of the list. -/
theorem stat_pipelining_order
    (items : List copyinfo) (oks : List Bool) (replies : List StatMsg)
    (hsend : (statSendLoop items oks).2 = true)
    (hid : ∀ r ∈ replies, r.id = ID_STAT)
    (hlen : items.length ≤ replies.length) :
    checkTimestampsPhase items oks (replies.map some) =
      ((items.map fun ci => SkipEv.sendStat ci.dst) ++ (items.map fun _ => SkipEv.recvStat),
       some (List.zipWith (fun ci r => updateSkip ci r.time r.mode r.size) items replies)) := by
  unfold checkTimestampsPhase
  rw [if_pos hsend]
  rw [statSendLoop_complete items oks hsend, statReadLoop_spec items replies hid hlen]

/-- Witness for C7: one item, one matching STAT reply. -/
theorem stat_pipelining_order_witness :
    (statSendLoop [⟨"s", "d", 5, 0o100644, 10, 0⟩] []).2 = true ∧
    (∀ r ∈ [(⟨ID_STAT, 0o100644, 10, 5⟩ : StatMsg)], r.id = ID_STAT) ∧
    ([(⟨"s", "d", 5, 0o100644, 10, 0⟩ : copyinfo)]).length ≤
      ([(⟨ID_STAT, 0o100644, 10, 5⟩ : StatMsg)]).length ∧
    checkTimestampsPhase [⟨"s", "d", 5, 0o100644, 10, 0⟩] []
        ([(⟨ID_STAT, 0o100644, 10, 5⟩ : StatMsg)].map some) =
      (([(⟨"s", "d", 5, 0o100644, 10, 0⟩ : copyinfo)].map fun ci => SkipEv.sendStat ci.dst) ++
        ([(⟨"s", "d", 5, 0o100644, 10, 0⟩ : copyinfo)].map fun _ => SkipEv.recvStat),
       some (List.zipWith (fun ci r => updateSkip ci r.time r.mode r.size)
         [⟨"s", "d", 5, 0o100644, 10, 0⟩] [(⟨ID_STAT, 0o100644, 10, 5⟩ : StatMsg)])) :=
  ⟨rfl, by simp, by simp,
   stat_pipelining_order [⟨"s", "d", 5, 0o100644, 10, 0⟩] []
     [(⟨ID_STAT, 0o100644, 10, 5⟩ : StatMsg)] rfl (by simp) (by simp)⟩

/-- The LIST reply loop computes exactly the specification pair: success iff
the frame after the well-formed DENT prefix is DONE, entries the mapped
prefix in order. -/
theorem lsLoop_spec :
    ∀ (frames : List LsFrame) (sc : SC),
      lsLoop sc frames = (sc, lsOkSpec frames, lsEntriesSpec frames) := by
  intro frames
  induction frames with
  | nil => intro sc; rfl
  | cons f rest ih =>
    intro sc
    by_cases h1 : f.id = ID_DONE
    · have hg : goodDent f = false := by
        unfold goodDent
        rw [h1]
        simp [ID_DONE_ne_DENT]
      rw [lsLoop]
      rw [if_pos h1]
      unfold lsOkSpec lsEntriesSpec
      rw [List.dropWhile_cons, List.takeWhile_cons]
      rw [hg]
      simp [h1]
    · by_cases h2 : f.id = ID_DENT
      · by_cases h3 : f.namelen > 256
        · have hg : goodDent f = false := by
            unfold goodDent
            simp [Nat.not_le_of_lt h3]
          rw [lsLoop]
          rw [if_neg h1, if_neg (not_not_intro h2), if_pos h3]
          unfold lsOkSpec lsEntriesSpec
          rw [List.dropWhile_cons, List.takeWhile_cons]
          rw [hg]
          simp [h1]
        · by_cases h4 : f.nameOk = false
          · have hg : goodDent f = false := by
              unfold goodDent
              rw [h4]
              simp
            rw [lsLoop]
            rw [if_neg h1, if_neg (not_not_intro h2), if_neg h3, if_pos h4]
            unfold lsOkSpec lsEntriesSpec
            rw [List.dropWhile_cons, List.takeWhile_cons]
            rw [hg]
            simp [h1]
          · have hg : goodDent f = true := by
              unfold goodDent
              rw [h2]
              simp only [Bool.not_eq_false] at h4
              simp [h4, Nat.le_of_not_lt h3]
            rw [lsLoop]
            rw [if_neg h1, if_neg (not_not_intro h2), if_neg h3, if_neg h4]
            rw [ih sc]
            unfold lsOkSpec lsEntriesSpec
            rw [List.dropWhile_cons, List.takeWhile_cons]
            rw [hg]
            simp [lsOkSpec, lsEntriesSpec]
      · have hg : goodDent f = false := by
          unfold goodDent
          simp [h2]
        rw [lsLoop]
        rw [if_neg h1, if_pos h2]
        unfold lsOkSpec lsEntriesSpec
        rw [List.dropWhile_cons, List.takeWhile_cons]
        rw [hg]
        simp [h1]

/-- C8: a LIST transaction delivers one callback per well-formed DENT reply,
in arrival order, stopping at the first other frame; it returns true exactly
when that frame is a DONE, and false on a reply whose id is neither DENT nor
DONE or whose namelen exceeds 256 — after which no further entry is
delivered.  (`lsOkSpec`/`lsEntriesSpec` state this shape; the hypotheses say
the LIST request itself, with its path of at most 1024 bytes, was written
successfully.) -/
theorem sync_ls_refines_spec
    (sc : SC) (path : List Nat) (sendOk : Bool) (frames : List LsFrame)
    (hlen : path.length ≤ 1024) (hok : sendOk = true) :
    sync_ls sc path sendOk frames = (sc, lsOkSpec frames, lsEntriesSpec frames) := by
  subst hok
  unfold sync_ls
  rw [if_pos]
  · exact lsLoop_spec frames sc
  · unfold SendRequest
    rw [if_neg (Nat.not_lt_of_le hlen)]

/-- Witness for C8: two well-formed DENTs followed by DONE yield two entries
in order and success. -/
theorem sync_ls_refines_spec_witness :
    ([] : List Nat).length ≤ 1024 ∧
    sync_ls ⟨0, SYNC_DATA_MAX⟩ [] true
        [⟨ID_DENT, 0o040755, 0, 100, 1, true, [97]⟩,
         ⟨ID_DENT, 0o100644, 7, 200, 5, true, [98, 46, 116, 120, 116]⟩,
         ⟨ID_DONE, 0, 0, 0, 0, true, []⟩] =
      (⟨0, SYNC_DATA_MAX⟩,
       lsOkSpec [⟨ID_DENT, 0o040755, 0, 100, 1, true, [97]⟩,
         ⟨ID_DENT, 0o100644, 7, 200, 5, true, [98, 46, 116, 120, 116]⟩,
         ⟨ID_DONE, 0, 0, 0, 0, true, []⟩],
       lsEntriesSpec [⟨ID_DENT, 0o040755, 0, 100, 1, true, [97]⟩,
         ⟨ID_DENT, 0o100644, 7, 200, 5, true, [98, 46, 116, 120, 116]⟩,
         ⟨ID_DONE, 0, 0, 0, 0, true, []⟩]) :=
  ⟨by decide,
   sync_ls_refines_spec ⟨0, SYNC_DATA_MAX⟩ [] true
     [⟨ID_DENT, 0o040755, 0, 100, 1, true, [97]⟩,
      ⟨ID_DENT, 0o100644, 7, 200, 5, true, [98, 46, 116, 120, 116]⟩,
      ⟨ID_DONE, 0, 0, 0, 0, true, []⟩] (by decide) rfl⟩
